import Mathlib

/-!
Verification development for the LibreSprite scripting layer:
the script::Engine contract (src/src/app/commands/cmd_run_script.cpp,
third section, the script/engine.h header text), the two concrete
backends V8Engine and LuaEngine with their InternalScriptObject
adapters (src/src/script/v8/engine.cpp), and the dialog factory
type-name lookup (DialogScriptObject::add).

Machine integers are modelled as Int with explicit wrapping where the
source narrows; interpreter floating point numbers are modelled as
rationals, which is faithful here because the adapters only transport
the payload and never perform floating point arithmetic on it.
-/

namespace LibreSprite

/-- script::Value. Modelled from the spec: value.h is not under src/.
Section 3 of the spec fixes the kinds (UNDEFINED, INT as signed 64 bit,
DOUBLE, STRING, OBJECT), and the switch statements over Value::Type in
V8ScriptObject::returnValue and LuaScriptObject::returnValue
(engine.cpp lines 146 to 167 and 353 to 378) list exactly these five
kinds. The OBJECT payload is a ScriptObject pointer, modelled as a Nat
identity where 0 stands for the null pointer. -/
inductive Value where
  | undefined : Value
  | int : Int → Value
  | double : ℚ → Value
  | string : String → Value
  | object : Nat → Value
deriving DecidableEq

/-- Narrowing of a 64 bit integer payload to a signed 32 bit value, as
performed by the C style cast (int) value in LuaScriptObject::returnValue
(engine.cpp line 359) and by the int32_t conversion inside
v8::Int32::New in V8ScriptObject::returnValue (engine.cpp line 152). -/
def wrap32 (v : Int) : Int := (v + 2 ^ 31) % 2 ^ 32 - 2 ^ 31

/-- Exact embedding of an integral machine value into the interpreter
floating point number carrier. Every signed 32 bit integer is exactly
representable as a double, so the rational embedding is faithful. -/
def intAsNumber (n : Int) : ℚ := (n : ℚ)

/-- Interpreter native values of the Lua backend, one constructor per
lua_type tag that LuaScriptObject::getValue (engine.cpp lines 343 to 351)
distinguishes. Identities of heap values are modelled as Nat. -/
inductive LuaValue where
  | nil : LuaValue
  | number : ℚ → LuaValue
  | boolean : Bool → LuaValue
  | string : String → LuaValue
  | table : Nat → LuaValue
  | function : Nat → LuaValue
  | userdata : Nat → LuaValue
  | thread : Nat → LuaValue
  | lightuserdata : Nat → LuaValue
deriving DecidableEq

/-- LuaScriptObject::getValue (engine.cpp lines 343 to 351). The second
component is the stdout diagnostic log, which for the Lua adapter is
always empty: the unconvertible tags LUA_TTABLE, LUA_TFUNCTION,
LUA_TUSERDATA, LUA_TTHREAD and LUA_TLIGHTUSERDATA fall through to
return a default constructed Value with no message (the source only
carries a comment there). lua_tonumber yields a double, so every
number becomes a DOUBLE Value; lua_toboolean yields an int, so a
boolean becomes an INT Value holding 0 or 1. -/
def LuaScriptObject.getValue : LuaValue → Value × List String
  | .nil => (.undefined, [])
  | .number v => (.double v, [])
  | .boolean b => (.int (if b then 1 else 0), [])
  | .string s => (.string s, [])
  | .table _ => (.undefined, [])
  | .function _ => (.undefined, [])
  | .userdata _ => (.undefined, [])
  | .thread _ => (.undefined, [])
  | .lightuserdata _ => (.undefined, [])

/-- LuaScriptObject::returnValue (engine.cpp lines 353 to 378). The
source pushes zero values for UNDEFINED (and for a null OBJECT pointer)
and one value otherwise; none models the empty push. An INT payload is
first narrowed by the cast (int) value and then pushed with
lua_pushinteger, after which the Lua number is read back as a double;
a non null OBJECT is realized by makeLocal as a fresh Lua table. -/
def LuaScriptObject.returnValue : Value → Option LuaValue
  | .undefined => none
  | .int v => some (.number (intAsNumber (wrap32 v)))
  | .double v => some (.number v)
  | .string s => some (.string s)
  | .object p => if p ≠ 0 then some (.table p) else none

/-- Round trip of a Value through the Lua native representation:
returnValue followed by getValue, where reading a missing pushed value
yields nil. -/
def luaRoundTrip (v : Value) : Value :=
  (LuaScriptObject.getValue ((LuaScriptObject.returnValue v).getD .nil)).1

/-- Interpreter native values of the V8 backend, one constructor per
predicate that V8ScriptObject::getValue (engine.cpp lines 119 to 144)
tests. Every Int32 or Uint32 handle also satisfies IsNumber, which is
tested first, so integral script numbers are covered by the number
constructor and the IsUint32 and IsInt32 branches of the source are
unreachable. The other constructor carries the TypeOf name of a value
that matches none of the predicates (for example a function or symbol). -/
inductive V8Value where
  | null : V8Value
  | undefined : V8Value
  | string : String → V8Value
  | number : ℚ → V8Value
  | boolean : Bool → V8Value
  | object : Nat → V8Value
  | other : String → V8Value
deriving DecidableEq

/-- V8ScriptObject::getValue (engine.cpp lines 119 to 144). The second
component is the stdout diagnostic log: values matching none of the
predicates (plain objects report TypeOf object, the other constructor
carries its own TypeOf name) produce the printf message
Unknown type: [t] and a default constructed (UNDEFINED) Value. -/
def V8ScriptObject.getValue : V8Value → Value × List String
  | .null => (.undefined, [])
  | .undefined => (.undefined, [])
  | .string s => (.string s, [])
  | .number v => (.double v, [])
  | .boolean b => (.int (if b then 1 else 0), [])
  | .object _ => (.undefined, ["Unknown type: [object]"])
  | .other t => (.undefined, ["Unknown type: [" ++ t ++ "]"])

/-- V8ScriptObject::returnValue (engine.cpp lines 146 to 167). UNDEFINED
returns an empty Local handle, which V8 surfaces to the script as
undefined when set as a return value; INT is narrowed to 32 bits by
v8::Int32::New and the resulting script value is a Number; a non null
OBJECT is realized by makeLocal as a fresh script object, while a null
OBJECT pointer returns the empty (undefined) handle. -/
def V8ScriptObject.returnValue : Value → V8Value
  | .undefined => .undefined
  | .int v => .number (intAsNumber (wrap32 v))
  | .double v => .number v
  | .string s => .string s
  | .object p => if p ≠ 0 then .object p else .undefined

/-- Round trip of a Value through the V8 native representation:
returnValue followed by getValue. -/
def v8RoundTrip (v : Value) : Value :=
  (V8ScriptObject.getValue (V8ScriptObject.returnValue v)).1

/-- Observable effects of an engine session, in order of occurrence:
a delegate console message (EngineDelegate::onConsolePrint), the
invocation of one registered afterEval listener (identified by a Nat
tag; the stored std::function takes no argument, see
Engine::execAfterEval), or a call to Engine::initGlobals. -/
inductive Event where
  | consolePrint : String → Event
  | listenerFired : Nat → Event
  | initGlobals : Event
deriving DecidableEq

/-- True exactly on console print events. -/
def Event.isConsolePrint : Event → Bool
  | .consolePrint _ => true
  | _ => false

/-- True exactly on listener invocation events. -/
def Event.isListenerFired : Event → Bool
  | .listenerFired _ => true
  | _ => false

/-- Mutable per engine state visible to the claims: the m_printLastResult
flag of the concrete backends and the m_afterEvalListeners vector of the
Engine base class, holding listener tags in registration order. -/
structure EngineState where
  printLastResultFlag : Bool
  afterEvalListeners : List Nat
deriving DecidableEq

/-- script::Engine::afterEval (cmd_run_script.cpp lines 366 to 368):
emplace_back appends the callback at the end of m_afterEvalListeners. -/
def Engine.afterEval (ls : List Nat) (cb : Nat) : List Nat := ls ++ [cb]

/-- script::Engine::execAfterEval (cmd_run_script.cpp lines 350 to 354):
iterates over m_afterEvalListeners front to back, invoking each stored
listener once; the vector is not modified and no argument is passed to
the stored listeners. -/
def Engine.execAfterEval (ls : List Nat) : List Event := ls.map Event.listenerFired

/-- script::Engine::initGlobals (cmd_run_script.cpp lines 358 to 360):
assigns ScriptObject::getAllWithFlag("global") to m_scriptObjects, that
is, instantiates every registered ScriptObject carrying the flag
global. The registry is modelled as a list of name and flag-set pairs. -/
def Engine.initGlobalsObjects (registry : List (String × List String)) : List String :=
  (registry.filter (fun e => e.2.contains "global")).map (fun e => e.1)

/-- Outcome of loading and running one chunk in the Lua interpreter,
supplied as a parameter of the embedding: luaL_loadstring succeeds and
lua_pcall succeeds or fails, luaL_loadstring fails (syntax error), or a
native C++ exception is thrown inside the try block. -/
inductive LuaOutcome where
  | loadOkRunOk : LuaOutcome
  | loadOkRunErr : LuaOutcome
  | loadErr : LuaOutcome
  | nativeThrow : String → LuaOutcome

/-- LuaEngine::eval (engine.cpp lines 317 to 335), returning the success
flag, the emitted events in order, and the resulting engine state. The
source sets success to true, then runs luaL_loadstring and lua_pcall;
the statement success = false; that follows the closing brace of the
outer if on line 325 is not guarded by an else, so it executes on every
non throwing path, and every such path returns false. The catch branch
prints Error: followed by the exception text through the delegate and
also sets success to false. Note that no path prints the Lua error text:
neither the load failure nor the pcall failure reaches the delegate.
execAfterEval(success) runs after the try block on every path; the
listener vector itself is not modified, so the state is returned
unchanged, and LuaEngine::eval never calls initGlobals (that call sits
in the LuaEngine constructor only, line 301). -/
def LuaEngine.eval (interp : String → LuaOutcome) (st : EngineState) (code : String) :
    Bool × List Event × EngineState :=
  let fired := Engine.execAfterEval st.afterEvalListeners
  match interp code with
  | .loadOkRunOk => (false, fired, st)
  | .loadOkRunErr => (false, fired, st)
  | .loadErr => (false, fired, st)
  | .nativeThrow msg => (false, Event.consolePrint ("Error: " ++ msg) :: fired, st)

/-- LuaEngine constructor (engine.cpp lines 297 to 302): selects the
LuaScriptObject adapter as default, creates the lua state, opens the
standard libraries, and calls initGlobals once, before any evaluation. -/
def LuaEngine.construct : List Event := [Event.initGlobals]

/-- LuaEngine::printLastResult (engine.cpp lines 309 to 311): sets
m_printLastResult. The flag is never read again by any LuaEngine code. -/
def LuaEngine.printLastResult (st : EngineState) : EngineState :=
  { st with printLastResultFlag := true }

/-- LuaEngine::raiseEvent (engine.cpp lines 313 to 315): evaluates the
fixed chunk if onEvent~=nil then onEvent("name") end. -/
def LuaEngine.raiseEvent (interp : String → LuaOutcome) (st : EngineState) (event : String) :
    Bool × List Event × EngineState :=
  LuaEngine.eval interp st ("if onEvent~=nil then onEvent(\"" ++ event ++ "\") end")

/-- Outcome of compiling and running one script in the V8 interpreter,
supplied as a parameter of the embedding: compile fails (the MaybeLocal
from Script::Compile is empty), run succeeds with a result rendered as
the given text, run fails with an exception caught by the TryCatch and
rendered as the given text, or a native C++ exception is thrown. -/
inductive V8Outcome where
  | compileError : V8Outcome
  | runOk : String → V8Outcome
  | runErr : String → V8Outcome
  | nativeThrow : String → V8Outcome

/-- V8Engine::eval (engine.cpp lines 67 to 111), returning the emitted
events in order and some errFlag for the value of the return errFlag;
statement, or none when the call never returns: on a compile failure
ToLocalChecked is applied to the empty MaybeLocal on line 88, which
raises a V8 fatal error and aborts the process instead of being caught.
initGlobals() is called on line 81 on every evaluation, before the
source is compiled. On a completed run the code reaches errFlag = false
whether or not the TryCatch caught a runtime error, so the function
returns false (reporting failure under the bool success contract) on
every non throwing path, and returns true from the catch branch after
printing Error: plus the exception text. V8Engine::eval never calls
execAfterEval, so no afterEval listener events are ever emitted. -/
def V8Engine.eval (interp : String → V8Outcome) (st : EngineState) (code : String) :
    List Event × Option Bool :=
  match interp code with
  | .compileError => ([Event.initGlobals], none)
  | .runOk txt =>
      (Event.initGlobals ::
        (if st.printLastResultFlag then [Event.consolePrint txt] else []), some false)
  | .runErr txt => ([Event.initGlobals, Event.consolePrint txt], some false)
  | .nativeThrow msg =>
      ([Event.initGlobals, Event.consolePrint ("Error: " ++ msg)], some true)

/-- V8Engine::printLastResult (engine.cpp lines 63 to 65): sets
m_printLastResult, which V8Engine::eval reads on line 98. -/
def V8Engine.printLastResult (st : EngineState) : EngineState :=
  { st with printLastResultFlag := true }

/-- Uppercases the head character of a character list, as the assignment
cleanType[0] = toupper(cleanType[0]) does on the first byte. -/
def upperFirst : List Char → List Char
  | [] => []
  | c :: cs => c.toUpper :: cs

/-- Type name normalization of DialogScriptObject::add
(cmd_run_script.cpp lines 305 to 308): base::string_to_lower lowercases
the whole name, toupper is applied to the first character only, and the
fixed suffix WidgetScriptObject is appended before the registry lookup
inject<script::ScriptObject>{cleanType}. -/
def DialogScriptObject.normalizeTypeName (t : List Char) : List Char :=
  upperFirst (t.map Char.toLower) ++ String.toList "WidgetScriptObject"

/-- Guard of DialogScriptObject::add (cmd_run_script.cpp line 302): an
empty type name yields no factory key at all (the function returns
nullptr); otherwise the normalized key is used for resolution. -/
def DialogScriptObject.factoryKey (t : List Char) : Option (List Char) :=
  if t = [] then none else some (DialogScriptObject.normalizeTypeName t)

/-- C1: with one afterEval listener registered, an evaluation on the V8
backend emits no listener invocation at all, refuting the claim that
every backend invokes every registered listener once with the success
boolean: V8Engine::eval never calls execAfterEval even though the
listener vector is nonempty. -/
theorem C1_v8_eval_fires_no_listener :
    ((V8Engine.eval (fun _ => V8Outcome.runOk "undefined")
        (EngineState.mk false [7]) "1+1").1.filter Event.isListenerFired) = [] ∧
    (EngineState.mk false [7]).afterEvalListeners ≠ [] := by
  decide

/-- C2: evaluating the empty source with both the load and the call
succeeding still reports failure on the Lua backend, because the
unguarded statement success = false; after the if block executes
unconditionally, and the one afterEval notification it fires therefore
carries failure; the V8 backend returns errFlag, which is false after a
successful run (reporting failure), and fires no afterEval listener at
all. This refutes the claim that eval of the empty source returns true
and fires exactly one afterEval notification carrying true. -/
theorem C2_empty_source_eval_reports_failure :
    (LuaEngine.eval (fun _ => LuaOutcome.loadOkRunOk) (EngineState.mk false [9]) "").1
      = false ∧
    (LuaEngine.eval (fun _ => LuaOutcome.loadOkRunOk) (EngineState.mk false [9]) "").2.1
      = [Event.listenerFired 9] ∧
    (V8Engine.eval (fun _ => V8Outcome.runOk "undefined") (EngineState.mk false [9]) "").2
      = some false ∧
    ((V8Engine.eval (fun _ => V8Outcome.runOk "undefined")
        (EngineState.mk false [9]) "").1.filter Event.isListenerFired) = [] := by
  decide

/-- C3: evaluating a chunk that fails to load on the Lua backend returns
false and fires the afterEval listener once, but produces zero delegate
console messages, refuting the claim of exactly one console message per
failed evaluation; and on the V8 backend a compile failure never
returns from eval at all (ToLocalChecked on the empty compile result is
a fatal abort, modelled as the outcome none), refuting the claim that
interpreter level failures are caught at the eval boundary on every
backend. -/
theorem C3_syntax_error_prints_nothing :
    ((LuaEngine.eval (fun _ => LuaOutcome.loadErr) (EngineState.mk false [3])
        "syntax error((").2.1.filter Event.isConsolePrint) = [] ∧
    (LuaEngine.eval (fun _ => LuaOutcome.loadErr) (EngineState.mk false [3])
        "syntax error((").1 = false ∧
    ((LuaEngine.eval (fun _ => LuaOutcome.loadErr) (EngineState.mk false [3])
        "syntax error((").2.1.filter Event.isListenerFired) = [Event.listenerFired 3] ∧
    (V8Engine.eval (fun _ => V8Outcome.compileError) (EngineState.mk false [])
        "syntax error((").2 = none := by
  decide

/-- C4: counterexample to the claim that every backend invokes
initGlobals during every call to eval: an evaluation on the Lua backend
emits no initGlobals call (the Lua backend performs it only in its
constructor). -/
theorem C4_lua_eval_no_initGlobals :
    Event.initGlobals ∉
      (LuaEngine.eval (fun _ => LuaOutcome.loadOkRunOk)
        (EngineState.mk false [2]) "x=1").2.1 := by
  decide

/-- C4 amended: the V8 backend invokes initGlobals during every call to
eval before the source runs; the Lua backend invokes initGlobals once
at construction, before any eval, and never during eval; and
initGlobals instantiates exactly the registered ScriptObjects carrying
the flag global. -/
theorem C4_initGlobals_per_backend :
    (∀ (interp : String → V8Outcome) (st : EngineState) (code : String),
        Event.initGlobals ∈ (V8Engine.eval interp st code).1) ∧
    Event.initGlobals ∈ LuaEngine.construct ∧
    (∀ (interp : String → LuaOutcome) (st : EngineState) (code : String),
        Event.initGlobals ∉ (LuaEngine.eval interp st code).2.1) ∧
    Engine.initGlobalsObjects [("app", ["global"]), ("helper", [])] = ["app"] := by
  refine ⟨?_, by decide, ?_, by decide⟩
  · intro interp st code
    cases h : interp code <;> simp [V8Engine.eval, h]
  · intro interp st code
    cases h : interp code <;>
      simp [LuaEngine.eval, Engine.execAfterEval, List.mem_map, h]

/-- C5: counterexample to the round trip claim: on both backends an INT
Value round trips to a DOUBLE Value (the interpreters hand every number
back as a double), and an OBJECT Value round trips to UNDEFINED (the
realized native object or table has no Value equivalent on the way
back). -/
theorem C5_roundtrip_counterexample :
    luaRoundTrip (Value.int 5) ≠ Value.int 5 ∧
    v8RoundTrip (Value.int 5) ≠ Value.int 5 ∧
    luaRoundTrip (Value.object 1) ≠ Value.object 1 ∧
    v8RoundTrip (Value.object 1) ≠ Value.object 1 := by
  decide

/-- C5 amended: on both backends the round trip through returnValue and
getValue is exact for UNDEFINED, DOUBLE and STRING; an INT round trips
to a DOUBLE carrying the payload narrowed to signed 32 bits; and an
OBJECT (null or not) round trips to UNDEFINED. -/
theorem C5_roundtrip_amended :
    (luaRoundTrip Value.undefined = Value.undefined ∧
     v8RoundTrip Value.undefined = Value.undefined) ∧
    (∀ q : ℚ, luaRoundTrip (Value.double q) = Value.double q ∧
              v8RoundTrip (Value.double q) = Value.double q) ∧
    (∀ s : String, luaRoundTrip (Value.string s) = Value.string s ∧
                   v8RoundTrip (Value.string s) = Value.string s) ∧
    (∀ n : Int, luaRoundTrip (Value.int n) = Value.double (intAsNumber (wrap32 n)) ∧
                v8RoundTrip (Value.int n) = Value.double (intAsNumber (wrap32 n))) ∧
    (∀ p : Nat, luaRoundTrip (Value.object p) = Value.undefined ∧
                v8RoundTrip (Value.object p) = Value.undefined) := by
  refine ⟨⟨rfl, rfl⟩, fun q => ⟨rfl, rfl⟩, fun s => ⟨rfl, rfl⟩,
    fun n => ⟨rfl, rfl⟩, fun p => ?_⟩
  by_cases h : p = 0 <;>
    simp [luaRoundTrip, v8RoundTrip, LuaScriptObject.returnValue,
      V8ScriptObject.returnValue, LuaScriptObject.getValue, V8ScriptObject.getValue, h]

/-- C6: with print last result enabled, evaluating return 2+2 on the Lua
backend produces no delegate console message at all, refuting the claim
of a message with the textual form of 4: LuaEngine::eval never reads
m_printLastResult and lua_pcall discards all results. On the V8 backend
the same source is an illegal top level return, so the compile fails
and eval aborts instead of printing. -/
theorem C6_print_last_result_not_printed :
    ((LuaEngine.eval (fun _ => LuaOutcome.loadOkRunOk)
        (LuaEngine.printLastResult (EngineState.mk false [])) "return 2+2").2.1.filter
      Event.isConsolePrint) = [] ∧
    (V8Engine.eval (fun _ => V8Outcome.compileError)
        (V8Engine.printLastResult (EngineState.mk false [])) "return 2+2").2 = none := by
  decide

/-- C7: raising the event close when no onEvent is defined (the
generated chunk loads and runs fine) produces no console output, but
the call reports failure rather than success, because LuaEngine::eval
returns false on every non throwing path. This refutes the claim that
the call reports success. -/
theorem C7_raiseEvent_reports_failure :
    (LuaEngine.raiseEvent (fun _ => LuaOutcome.loadOkRunOk)
        (EngineState.mk false []) "close").1 = false ∧
    ((LuaEngine.raiseEvent (fun _ => LuaOutcome.loadOkRunOk)
        (EngineState.mk false []) "close").2.1.filter Event.isConsolePrint) = [] := by
  decide

/-- C8: counterexample to the claim that every backend adapter logs a
diagnostic for a native value with no Value equivalent: the Lua adapter
maps a table and a function to UNDEFINED with an empty diagnostic log. -/
theorem C8_lua_unknown_type_silent :
    LuaScriptObject.getValue (LuaValue.table 0) = (Value.undefined, []) ∧
    LuaScriptObject.getValue (LuaValue.function 0) = (Value.undefined, []) := by
  decide

/-- C8 amended: the V8 adapter logs the diagnostic Unknown type: [t] and
yields UNDEFINED for every native value with no Value equivalent, while
the Lua adapter yields UNDEFINED for tables, functions, userdata,
threads and light userdata without logging anything. -/
theorem C8_unknown_type_amended :
    (∀ t : String, V8ScriptObject.getValue (V8Value.other t) =
        (Value.undefined, ["Unknown type: [" ++ t ++ "]"])) ∧
    (∀ p : Nat, V8ScriptObject.getValue (V8Value.object p) =
        (Value.undefined, ["Unknown type: [object]"])) ∧
    (∀ p : Nat,
        LuaScriptObject.getValue (LuaValue.table p) = (Value.undefined, []) ∧
        LuaScriptObject.getValue (LuaValue.function p) = (Value.undefined, []) ∧
        LuaScriptObject.getValue (LuaValue.userdata p) = (Value.undefined, []) ∧
        LuaScriptObject.getValue (LuaValue.thread p) = (Value.undefined, []) ∧
        LuaScriptObject.getValue (LuaValue.lightuserdata p) = (Value.undefined, [])) :=
  ⟨fun _ => rfl, fun _ => rfl, fun _ => ⟨rfl, rfl, rfl, rfl, rfl⟩⟩

/-- C9: the factory lookup of DialogScriptObject::add normalizes the
requested type name by lowercasing it, uppercasing the first character
and appending the suffix WidgetScriptObject, so the request lAbEl
resolves to the same registered factory key as Label, namely
LabelWidgetScriptObject; and any two requests agreeing up to letter
case normalize to the same key. -/
theorem C9_type_name_normalized :
    (DialogScriptObject.factoryKey (String.toList "lAbEl") =
       DialogScriptObject.factoryKey (String.toList "Label") ∧
     DialogScriptObject.normalizeTypeName (String.toList "lAbEl") =
       String.toList "LabelWidgetScriptObject") ∧
    (∀ s t : List Char, s.map Char.toLower = t.map Char.toLower →
       DialogScriptObject.normalizeTypeName s = DialogScriptObject.normalizeTypeName t) := by
  refine ⟨by decide, fun s t h => ?_⟩
  unfold DialogScriptObject.normalizeTypeName
  rw [h]

/-- C9 witness: the case insensitivity part of the normalization theorem
applied at the concrete requests lAbEl and LABEL. -/
theorem C9_type_name_normalized_wit :
    DialogScriptObject.normalizeTypeName (String.toList "lAbEl") =
      DialogScriptObject.normalizeTypeName (String.toList "LABEL") :=
  C9_type_name_normalized.2 (String.toList "lAbEl") (String.toList "LABEL") (by decide)

/-- C10: the afterEval listener list only grows: afterEval appends the
callback at the end, execAfterEval fires every stored listener exactly
once in registration order and removes none, eval leaves the listener
list unchanged, and concretely a listener registered before a first
evaluation on the Lua backend is fired exactly once by that evaluation
and exactly once again by a second evaluation on the same engine. -/
theorem C10_afterEval_listeners_accumulate :
    (∀ (ls : List Nat) (cb : Nat), Engine.afterEval ls cb = ls ++ [cb]) ∧
    (∀ ls : List Nat, Engine.execAfterEval ls = ls.map Event.listenerFired) ∧
    (∀ (interp : String → LuaOutcome) (st : EngineState) (code : String),
        (LuaEngine.eval interp st code).2.2 = st) ∧
    (((LuaEngine.eval (fun _ => LuaOutcome.loadOkRunOk)
         (EngineState.mk false (Engine.afterEval [] 7)) "first").2.1.filter
        Event.isListenerFired) = [Event.listenerFired 7] ∧
     ((LuaEngine.eval (fun _ => LuaOutcome.loadOkRunOk)
         (LuaEngine.eval (fun _ => LuaOutcome.loadOkRunOk)
            (EngineState.mk false (Engine.afterEval [] 7)) "first").2.2 "second").2.1.filter
        Event.isListenerFired) = [Event.listenerFired 7]) := by
  refine ⟨fun ls cb => rfl, fun ls => rfl, ?_, by decide⟩
  intro interp st code
  cases h : interp code <;> simp [LuaEngine.eval, h]

end LibreSprite
